import Mathlib

/-
Verification of the OneButton button-interaction state machine
(src/OneButton.cpp) against its design specification.

The C++ class is shallowly embedded: the member fields become a structure,
each member function becomes a Lean function on that structure, and the two
external reads performed inside tick() — digitalRead(_pin) and millis() —
become explicit parameters of tick.  Callback-function-pointer members are
modelled by a Bool recording whether the slot holds a non-null handler, and
tick additionally returns the ordered list of callback slots it invoked.
-/

/-- Logical level of a digital pin as returned by digitalRead: HIGH or LOW. -/
inductive PinLevel
  | high
  | low
deriving DecidableEq

/-- Event codes returned by OneButton::tick.  The named constants
(PRESSED_STATE, CLICK_STATE, DOUBLE_CLICK_STATE, LONG_PRESS_START_STATE,
DURING_LONG_PRESS_STATE, LONG_PRESS_STOP_STATE) are declared in OneButton.h,
which is not part of src/; their concrete numeric values are irrelevant to
the state machine, so they are modelled as an inductive type, with `none`
standing for the value 0 that `finalState` keeps when no event occurs. -/
inductive Event
  | none
  | pressed
  | click
  | doubleClick
  | longPressStart
  | duringLongPress
  | longPressStop
deriving DecidableEq

/-- Names of the six callback slots of OneButton. -/
inductive Cb
  | click
  | doubleClick
  | press
  | longPressStart
  | longPressStop
  | duringLongPress
deriving DecidableEq

/-- The member fields of class OneButton (declared in OneButton.h, written by
src/OneButton.cpp).  unsigned long members are Nat, the int millisecond
thresholds are Int, and each callback-function-pointer member is a Bool
recording whether the slot holds a non-null handler.  The pin number plays no
role in the state machine itself and is omitted. -/
structure OneButton where
  _clickTicks : Int
  _pressTicks : Int
  _lastActivityTime : Nat
  _state : Nat
  _isLongPressed : Bool
  _buttonReleased : PinLevel
  _buttonPressed : PinLevel
  _startTime : Nat
  _clickFunc : Bool
  _doubleClickFunc : Bool
  _pressFunc : Bool
  _longPressStartFunc : Bool
  _longPressStopFunc : Bool
  _duringLongPressFunc : Bool
deriving DecidableEq

/-- OneButton::OneButton(int pin, int activeLow), src/OneButton.cpp lines
20-51.  The constructor initializes every member except _startTime and
_clickFunc, which the C++ source leaves indeterminate (lines 46-50 set the
other five callback slots to NULL but not _clickFunc); the arbitrary initial
contents of those two members are therefore taken as the parameters
startTime0 and clickFunc0.  The pinMode/digitalWrite calls only touch the
hardware and have no counterpart here. -/
def OneButton.construct (activeLow : Bool) (startTime0 : Nat) (clickFunc0 : Bool) :
    OneButton where
  _clickTicks := 250
  _pressTicks := 600
  _lastActivityTime := 0
  _state := 0
  _isLongPressed := false
  _buttonReleased := if activeLow then PinLevel.high else PinLevel.low
  _buttonPressed := if activeLow then PinLevel.low else PinLevel.high
  _startTime := startTime0
  _clickFunc := clickFunc0
  _doubleClickFunc := false
  _pressFunc := false
  _longPressStartFunc := false
  _longPressStopFunc := false
  _duringLongPressFunc := false

/-- OneButton::setClickTicks, lines 55-57. -/
def OneButton.setClickTicks (s : OneButton) (ticks : Int) : OneButton :=
  { s with _clickTicks := ticks }

/-- OneButton::setPressTicks, lines 61-63. -/
def OneButton.setPressTicks (s : OneButton) (ticks : Int) : OneButton :=
  { s with _pressTicks := ticks }

/-- OneButton::getLastActivityTime, lines 66-68. -/
def OneButton.getLastActivityTime (s : OneButton) : Nat :=
  s._lastActivityTime

/-- OneButton::attachClick, lines 71-74.  newFunction records whether the
stored pointer is non-null. -/
def OneButton.attachClick (s : OneButton) (newFunction : Bool) : OneButton :=
  { s with _clickFunc := newFunction }

/-- OneButton::attachDoubleClick, lines 78-81. -/
def OneButton.attachDoubleClick (s : OneButton) (newFunction : Bool) : OneButton :=
  { s with _doubleClickFunc := newFunction }

/-- OneButton::attachPress, lines 86-89. -/
def OneButton.attachPress (s : OneButton) (newFunction : Bool) : OneButton :=
  { s with _pressFunc := newFunction }

/-- OneButton::attachLongPressStart, lines 92-95. -/
def OneButton.attachLongPressStart (s : OneButton) (newFunction : Bool) : OneButton :=
  { s with _longPressStartFunc := newFunction }

/-- OneButton::attachLongPressStop, lines 98-101. -/
def OneButton.attachLongPressStop (s : OneButton) (newFunction : Bool) : OneButton :=
  { s with _longPressStopFunc := newFunction }

/-- OneButton::attachDuringLongPress, lines 104-107. -/
def OneButton.attachDuringLongPress (s : OneButton) (newFunction : Bool) : OneButton :=
  { s with _duringLongPressFunc := newFunction }

/-- OneButton::isLongPressed, lines 110-112. -/
def OneButton.isLongPressed (s : OneButton) : Bool :=
  s._isLongPressed

/-- Modulus of the Arduino unsigned long type (32 bits). -/
def ULONG_MOD : Nat := 2 ^ 32

/-- Value of a C int after the usual arithmetic conversion to unsigned long,
as happens to _clickTicks and _pressTicks inside the mixed comparisons
`now > _startTime + _clickTicks` and `now > _startTime + _pressTicks`. -/
def intToULong (i : Int) : Nat :=
  (i % (ULONG_MOD : Int)).toNat

/-- Addition of unsigned long values (wraps modulo 2^32). -/
def uadd (a b : Nat) : Nat :=
  (a + b) % ULONG_MOD

/-- Result of one call to OneButton::tick: the event code it returns, the
list of callback slots it invoked in invocation order, and the object state
after the call. -/
structure TickResult where
  event : Event
  calls : List Cb
  st : OneButton
deriving DecidableEq

/-- The state-machine chain of OneButton::tick, src/OneButton.cpp lines
133-189: the if/else-if cascade on _state, before the final
_lastActivityTime update.  buttonLevel is the value digitalRead(_pin)
returned and now the value millis() returned for this call. -/
def OneButton.tickCore (s : OneButton) (buttonLevel : PinLevel) (now : Nat) :
    TickResult :=
  if s._state = 0 then
    if buttonLevel = s._buttonPressed then
      { event := Event.pressed, calls := [],
        st := { s with _state := 1, _startTime := now } }
    else
      { event := Event.none, calls := [], st := s }
  else if s._state = 1 then
    if buttonLevel = s._buttonReleased then
      { event := Event.none, calls := [], st := { s with _state := 2 } }
    else if buttonLevel = s._buttonPressed ∧
        now > uadd s._startTime (intToULong s._pressTicks) then
      { event := Event.longPressStart,
        calls :=
          (if s._pressFunc then [Cb.press] else []) ++
          (if s._longPressStartFunc then [Cb.longPressStart] else []) ++
          (if s._duringLongPressFunc then [Cb.duringLongPress] else []),
        st := { s with _isLongPressed := true, _state := 6 } }
    else
      { event := Event.none, calls := [], st := s }
  else if s._state = 2 then
    if now > uadd s._startTime (intToULong s._clickTicks) then
      { event := Event.click,
        calls := if s._clickFunc then [Cb.click] else [],
        st := { s with _state := 0 } }
    else if buttonLevel = s._buttonPressed then
      { event := Event.none, calls := [], st := { s with _state := 3 } }
    else
      { event := Event.none, calls := [], st := s }
  else if s._state = 3 then
    if buttonLevel = s._buttonReleased then
      { event := Event.doubleClick,
        calls := if s._doubleClickFunc then [Cb.doubleClick] else [],
        st := { s with _state := 0 } }
    else
      { event := Event.none, calls := [], st := s }
  else if s._state = 6 then
    if buttonLevel = s._buttonReleased then
      { event := Event.longPressStop,
        calls := if s._longPressStopFunc then [Cb.longPressStop] else [],
        st := { s with _isLongPressed := false, _state := 0 } }
    else
      { event := Event.duringLongPress,
        calls := if s._duringLongPressFunc then [Cb.duringLongPress] else [],
        st := { s with _isLongPressed := true } }
  else
    { event := Event.none, calls := [], st := s }

/-- OneButton::tick, src/OneButton.cpp lines 126-194: the state-machine
chain followed by the final update `if (finalState != 0) _lastActivityTime
= now` (lines 190-192). -/
def OneButton.tick (s : OneButton) (buttonLevel : PinLevel) (now : Nat) :
    TickResult :=
  let r := s.tickCore buttonLevel now
  if r.event = Event.none then r
  else { r with st := { r.st with _lastActivityTime := now } }

/-- Repeated calls to tick on a list of (buttonLevel, now) samples; returns
the final object state. -/
def OneButton.run (s : OneButton) : List (PinLevel × Nat) → OneButton
  | [] => s
  | (l, t) :: rest => OneButton.run (s.tick l t).st rest

/-- Repeated calls to tick on a list of (buttonLevel, now) samples; returns
the list of event codes of the successive calls. -/
def OneButton.runEvents (s : OneButton) : List (PinLevel × Nat) → List Event
  | [] => []
  | (l, t) :: rest => (s.tick l t).event :: OneButton.runEvents (s.tick l t).st rest

/-- The five _state values the state machine uses: 0 (Idle),
1 (PressDetected), 2 (WaitSecondPress), 3 (WaitSecondRelease),
6 (LongPressActive). -/
def stateOK (s : OneButton) : Prop :=
  s._state = 0 ∨ s._state = 1 ∨ s._state = 2 ∨ s._state = 3 ∨ s._state = 6

/-- Concrete active-high instance with the two indeterminate members taken
as 0 / null, used for concrete evaluations. -/
def ex0 : OneButton := OneButton.construct false 0 false

/-- ex0 with a double-click handler attached. -/
def ex0DC : OneButton := ex0.attachDoubleClick true

/-- ex0 after press@0 and release@50: the machine sits in state 2
(WaitSecondPress). -/
def exW2 : OneButton := OneButton.run ex0 [(PinLevel.high, 0), (PinLevel.low, 50)]

/-- ex0DC after press@0, release@50, press@100: the machine sits in state 3
(WaitSecondRelease) with the double-click handler attached. -/
def exW3 : OneButton :=
  OneButton.run ex0DC [(PinLevel.high, 0), (PinLevel.low, 50), (PinLevel.high, 100)]

/-- ex0 with the press, long-press-start and during-long-press handlers
attached, after press@0: the machine sits in state 1 (PressDetected). -/
def exP1 : OneButton :=
  (((ex0.attachPress true).attachLongPressStart true).attachDuringLongPress
    true).tick PinLevel.high 0 |>.st

/-
Helper lemmas shared by the claim theorems.
-/

/-- The state-machine chain itself never writes _lastActivityTime; only the
final update in tick does. -/
theorem tickCore_lastActivity (s : OneButton) (l : PinLevel) (t : Nat) :
    (s.tickCore l t).st._lastActivityTime = s._lastActivityTime := by
  simp only [OneButton.tickCore]
  split_ifs <;> rfl

/-- Per-call characterization of _lastActivityTime: it becomes now exactly
when the call returns a non-none event, and is untouched otherwise. -/
theorem tick_lastActivity (s : OneButton) (l : PinLevel) (t : Nat) :
    (s.tick l t).st._lastActivityTime =
      if (s.tick l t).event = Event.none then s._lastActivityTime else t := by
  simp only [OneButton.tick]
  by_cases h : (s.tickCore l t).event = Event.none
  · simp [h, tickCore_lastActivity]
  · simp [h]

/-- The final _lastActivityTime update of tick does not change _state. -/
theorem tick_st_state (s : OneButton) (l : PinLevel) (t : Nat) :
    (s.tick l t).st._state = (s.tickCore l t).st._state := by
  simp only [OneButton.tick]
  split <;> rfl

/-- The final _lastActivityTime update of tick does not change
_isLongPressed. -/
theorem tick_st_lp (s : OneButton) (l : PinLevel) (t : Nat) :
    (s.tick l t).st._isLongPressed = (s.tickCore l t).st._isLongPressed := by
  simp only [OneButton.tick]
  split <;> rfl

/-- tick returns the event computed by the state-machine chain. -/
theorem tick_event (s : OneButton) (l : PinLevel) (t : Nat) :
    (s.tick l t).event = (s.tickCore l t).event := by
  simp only [OneButton.tick]
  split <;> rfl

/-- tick returns the callback-invocation list computed by the state-machine
chain. -/
theorem tick_calls (s : OneButton) (l : PinLevel) (t : Nat) :
    (s.tick l t).calls = (s.tickCore l t).calls := by
  simp only [OneButton.tick]
  split <;> rfl

/-- The state-machine chain keeps _state inside {0, 1, 2, 3, 6}. -/
theorem tickCore_stateOK (s : OneButton) (l : PinLevel) (t : Nat)
    (h : stateOK s) : stateOK (s.tickCore l t).st := by
  simp only [OneButton.tickCore]
  split_ifs <;> simp_all [stateOK]

/-- Each call to tick keeps _state inside {0, 1, 2, 3, 6}. -/
theorem tick_stateOK (s : OneButton) (l : PinLevel) (t : Nat) (h : stateOK s) :
    stateOK (s.tick l t).st := by
  simp only [stateOK, tick_st_state]
  exact tickCore_stateOK s l t h

/-- Any run from a state in {0, 1, 2, 3, 6} stays in {0, 1, 2, 3, 6}. -/
theorem run_stateOK (samples : List (PinLevel × Nat)) (s : OneButton)
    (h : stateOK s) : stateOK (OneButton.run s samples) := by
  induction samples generalizing s with
  | nil => exact h
  | cons p rest ih =>
      obtain ⟨l, t⟩ := p
      exact ih _ (tick_stateOK s l t h)

/-- The state-machine chain preserves the invariant that _isLongPressed
holds exactly in state 6. -/
theorem tickCore_lpInv (s : OneButton) (l : PinLevel) (t : Nat)
    (h : s._isLongPressed = true ↔ s._state = 6) :
    ((s.tickCore l t).st._isLongPressed = true ↔
      (s.tickCore l t).st._state = 6) := by
  simp only [OneButton.tickCore]
  split_ifs <;> simp_all

/-- Each call to tick preserves the invariant that _isLongPressed holds
exactly in state 6. -/
theorem tick_lpInv (s : OneButton) (l : PinLevel) (t : Nat)
    (h : s._isLongPressed = true ↔ s._state = 6) :
    ((s.tick l t).st._isLongPressed = true ↔ (s.tick l t).st._state = 6) := by
  rw [tick_st_state, tick_st_lp]
  exact tickCore_lpInv s l t h

/-- Any run from a state satisfying the long-press invariant preserves it. -/
theorem run_lpInv (samples : List (PinLevel × Nat)) (s : OneButton)
    (h : s._isLongPressed = true ↔ s._state = 6) :
    ((OneButton.run s samples)._isLongPressed = true ↔
      (OneButton.run s samples)._state = 6) := by
  induction samples generalizing s with
  | nil => exact h
  | cons p rest ih =>
      obtain ⟨l, t⟩ := p
      exact ih _ (tick_lpInv s l t h)

/-- Across a run whose every call returns none, _lastActivityTime is
unchanged. -/
theorem run_lastActivity_none (samples : List (PinLevel × Nat)) (s : OneButton)
    (h : ∀ e ∈ OneButton.runEvents s samples, e = Event.none) :
    (OneButton.run s samples)._lastActivityTime = s._lastActivityTime := by
  induction samples generalizing s with
  | nil => rfl
  | cons p rest ih =>
      obtain ⟨l, t⟩ := p
      have h1 : (s.tick l t).event = Event.none := by
        apply h
        simp [OneButton.runEvents]
      have h2 : (s.tick l t).st._lastActivityTime = s._lastActivityTime := by
        rw [tick_lastActivity, h1]
        simp
      have h3 : ∀ e ∈ OneButton.runEvents (s.tick l t).st rest, e = Event.none := by
        intro e he
        apply h
        simp [OneButton.runEvents, he]
      calc (OneButton.run s ((l, t) :: rest))._lastActivityTime
        = (OneButton.run (s.tick l t).st rest)._lastActivityTime := rfl
        _ = (s.tick l t).st._lastActivityTime := ih _ h3
        _ = s._lastActivityTime := h2

/-
Claim theorems.
-/

/-- Claim C1, as stated, is false on the code: the PressDetected →
WaitSecondPress transition (state 1, released sample, lines 141-144) does
NOT write _startTime.  Concretely: press@0, release@50 leaves the machine in
state 2 with _startTime = 0, not 50, and a press arriving at t = 300 — which
is within 250 ms of the release, so under the claim it would be captured as
a potential double-click start — is instead resolved as a Click, because the
timeout is measured from the original press start (300 > 0 + 250). -/
theorem C1_counterexample :
    (OneButton.run ex0 [(PinLevel.high, 0), (PinLevel.low, 50)])._state = 2 ∧
    (OneButton.run ex0 [(PinLevel.high, 0), (PinLevel.low, 50)])._startTime = 0 ∧
    ¬ (OneButton.run ex0 [(PinLevel.high, 0), (PinLevel.low, 50)])._startTime = 50 ∧
    ((OneButton.run ex0 [(PinLevel.high, 0), (PinLevel.low, 50)]).tick
      PinLevel.high 300).event = Event.click := by
  decide

/-- Claim C1 (amended): the click-window timer is NOT re-based on the
release after the first click.  When tick() transitions from PressDetected
(state 1) to WaitSecondPress (state 2) on a released sample, _startTime is
left unchanged, so the subsequent timeout comparison in WaitSecondPress
(t > t0 + Tc) and the gap to a second press are measured from the original
press start. -/
theorem C1_release_keeps_epoch (s : OneButton) (l : PinLevel) (t : Nat)
    (h1 : s._state = 1) (h2 : l = s._buttonReleased) :
    (s.tick l t).st._state = 2 ∧ (s.tick l t).st._startTime = s._startTime := by
  have hc : s.tickCore l t =
      { event := Event.none, calls := [], st := { s with _state := 2 } } := by
    simp [OneButton.tickCore, h1, h2]
  simp [OneButton.tick, hc]

/-- Witness for C1_release_keeps_epoch at a concrete input: after press@0
the machine is in state 1; a released sample at t = 50 moves it to state 2
with _startTime unchanged. -/
theorem C1_witness :
    ((ex0.tick PinLevel.high 0).st.tick PinLevel.low 50).st._state = 2 ∧
    ((ex0.tick PinLevel.high 0).st.tick PinLevel.low 50).st._startTime =
      (ex0.tick PinLevel.high 0).st._startTime :=
  C1_release_keeps_epoch (ex0.tick PinLevel.high 0).st PinLevel.low 50
    (by decide) (by decide)

/-- Claim C2, as stated, is false on the code: at the exact tie
t = _startTime + _clickTicks (here 250 = 0 + 250) with a pressed sample, the
WaitSecondPress tick does NOT resolve a Click; because the timeout test is
the strict `now > _startTime + _clickTicks` (line 158), the tie falls
through to the new-press branch, which captures the press as a potential
double-click start (state 3) and returns no event. -/
theorem C2_counterexample :
    (OneButton.run ex0 [(PinLevel.high, 0), (PinLevel.low, 50)])._state = 2 ∧
    ((OneButton.run ex0 [(PinLevel.high, 0), (PinLevel.low, 50)]).tick
      PinLevel.high 250).event ≠ Event.click ∧
    ((OneButton.run ex0 [(PinLevel.high, 0), (PinLevel.low, 50)]).tick
      PinLevel.high 250).event = Event.none ∧
    ((OneButton.run ex0 [(PinLevel.high, 0), (PinLevel.low, 50)]).tick
      PinLevel.high 250).st._state = 3 := by
  decide

/-- Claim C2 (amended): in state WaitSecondPress the timeout check is
evaluated before the new-press check within the same tick, but the timeout
condition is strict, so at the exact tie t = t0 + Tc with a pressed sample
the timeout is false and the press IS captured as a potential double-click
start (transition to WaitSecondRelease, no event); a Click is resolved —
even with the button pressed — exactly when t > t0 + Tc strictly. -/
theorem C2_timeout_strict (s : OneButton) (t : Nat)
    (h1 : s._state = 2)
    (h2 : t = uadd s._startTime (intToULong s._clickTicks)) :
    (s.tick s._buttonPressed t).event = Event.none ∧
    (s.tick s._buttonPressed t).st._state = 3 ∧
    ∀ u : Nat, u > uadd s._startTime (intToULong s._clickTicks) →
      (s.tick s._buttonPressed u).event = Event.click := by
  have hne : ¬ t > uadd s._startTime (intToULong s._clickTicks) := by
    rw [h2]
    exact lt_irrefl _
  have hc : s.tickCore s._buttonPressed t =
      { event := Event.none, calls := [], st := { s with _state := 3 } } := by
    simp [OneButton.tickCore, h1, hne]
  refine ⟨by simp [OneButton.tick, hc], by simp [OneButton.tick, hc], ?_⟩
  intro u hu
  have hcu : s.tickCore s._buttonPressed u =
      { event := Event.click,
        calls := if s._clickFunc then [Cb.click] else [],
        st := { s with _state := 0 } } := by
    simp [OneButton.tickCore, h1, hu]
  simp [OneButton.tick, hcu]

/-- Witness for C2_timeout_strict at a concrete input: exW2 is in state 2
with _startTime = 0 and _clickTicks = 250; the tie is t = 250, and u = 251
is strictly past it. -/
theorem C2_witness :
    (exW2.tick exW2._buttonPressed 250).event = Event.none ∧
    (exW2.tick exW2._buttonPressed 250).st._state = 3 ∧
    (exW2.tick exW2._buttonPressed 251).event = Event.click := by
  have h := C2_timeout_strict exW2 250 (by decide) (by decide)
  exact ⟨h.1, h.2.1, h.2.2 251 (by decide)⟩

/-- Claim C3 concerns a code bug: the constructor (lines 46-50) sets
_doubleClickFunc, _pressFunc, _longPressStartFunc, _longPressStopFunc and
_duringLongPressFunc to NULL but never initializes _clickFunc, so on a
freshly constructed instance with no handlers registered, the click event
emitted at the WaitSecondPress timeout reads the indeterminate _clickFunc
member: if its garbage content is non-null (clickFunc0 = true) the tick
invokes it; only if it happens to be null (clickFunc0 = false) is the event
a silent no-op.  This theorem evaluates the model at the failing input
(fresh instance, press@0, release@50, tick@301) under both indeterminate
initial contents. -/
theorem C3_unregisteredClickSlotIndeterminate :
    ((OneButton.run (OneButton.construct false 0 true)
        [(PinLevel.high, 0), (PinLevel.low, 50)]).tick PinLevel.low 301).event =
      Event.click ∧
    ((OneButton.run (OneButton.construct false 0 true)
        [(PinLevel.high, 0), (PinLevel.low, 50)]).tick PinLevel.low 301).calls =
      [Cb.click] ∧
    ((OneButton.run (OneButton.construct false 0 false)
        [(PinLevel.high, 0), (PinLevel.low, 50)]).tick PinLevel.low 301).calls =
      [] := by
  decide

/-- Claim C4: with the default thresholds (click window 250 ms, long-press
threshold 600 ms), a freshly constructed machine ticked with pressed@0,
released@50, pressed@100, released@150 returns Pressed at t = 0 and
DoubleClick at t = 150 (firing the double-click handler), and no Click event
is emitted at any tick of the sequence. -/
theorem C4_defaultDoubleClickScenario :
    OneButton.runEvents ex0DC
        [(PinLevel.high, 0), (PinLevel.low, 50), (PinLevel.high, 100),
          (PinLevel.low, 150)] =
      [Event.pressed, Event.none, Event.none, Event.doubleClick] ∧
    ((OneButton.run ex0DC
        [(PinLevel.high, 0), (PinLevel.low, 50), (PinLevel.high, 100)]).tick
      PinLevel.low 150).calls = [Cb.doubleClick] := by
  decide

/-- Claim C5: for every sequence of (level, time) samples applied through
tick() from the initial state — for either polarity and any indeterminate
initial contents of the uninitialized members — _state is always one of the
five values used by the machine: 0 (Idle), 1 (PressDetected),
2 (WaitSecondPress), 3 (WaitSecondRelease), 6 (LongPressActive); tick is a
total function, so every (state, sample) pair has a defined transition. -/
theorem C5_stateTotality (activeLow : Bool) (st0 : Nat) (c0 : Bool)
    (samples : List (PinLevel × Nat)) :
    stateOK (OneButton.run (OneButton.construct activeLow st0 c0) samples) :=
  run_stateOK samples _ (Or.inl rfl)

/-- Claim C6: a tick updates _lastActivityTime exactly when it returns a
non-none event, in which case the new value is that tick's sampled
timestamp; and across any run of ticks all returning none the value is
unchanged (hence still equals the timestamp of the most recent
event-producing tick). -/
theorem C6_lastActivityIffEvent (s : OneButton) (l : PinLevel) (t : Nat) :
    (OneButton.getLastActivityTime (s.tick l t).st =
      if (s.tick l t).event = Event.none then OneButton.getLastActivityTime s
      else t) ∧
    ∀ samples : List (PinLevel × Nat),
      (∀ e ∈ OneButton.runEvents s samples, e = Event.none) →
      OneButton.getLastActivityTime (OneButton.run s samples) =
        OneButton.getLastActivityTime s := by
  constructor
  · simpa [OneButton.getLastActivityTime] using tick_lastActivity s l t
  · intro samples h
    simpa [OneButton.getLastActivityTime] using run_lastActivity_none samples s h

/-- Witness for C6_lastActivityIffEvent at a concrete input: two released
samples from the fresh machine produce no event and leave
getLastActivityTime at its initial value. -/
theorem C6_witness :
    OneButton.getLastActivityTime
        (OneButton.run ex0 [(PinLevel.low, 3), (PinLevel.low, 9)]) =
      OneButton.getLastActivityTime ex0 :=
  (C6_lastActivityIffEvent ex0 PinLevel.low 7).2
    [(PinLevel.low, 3), (PinLevel.low, 9)] (by decide)

/-- Claim C7: on the single tick that moves PressDetected (state 1) to
LongPressActive (state 6) — pressed sample with t strictly past
_startTime + _pressTicks — the registered handlers are invoked within that
same tick in the fixed order generic-press, long-press-start,
during-long-press, the tick returns LongPressStart, and _isLongPressed is
set. -/
theorem C7_longPressStartHandlerOrder (s : OneButton) (t : Nat)
    (h1 : s._state = 1)
    (hp : s._pressFunc = true)
    (hls : s._longPressStartFunc = true)
    (hd : s._duringLongPressFunc = true)
    (hne : s._buttonPressed ≠ s._buttonReleased)
    (ht : t > uadd s._startTime (intToULong s._pressTicks)) :
    (s.tick s._buttonPressed t).event = Event.longPressStart ∧
    (s.tick s._buttonPressed t).calls =
      [Cb.press, Cb.longPressStart, Cb.duringLongPress] ∧
    (s.tick s._buttonPressed t).st._state = 6 ∧
    (s.tick s._buttonPressed t).st._isLongPressed = true := by
  have hc : s.tickCore s._buttonPressed t =
      { event := Event.longPressStart,
        calls := [Cb.press, Cb.longPressStart, Cb.duringLongPress],
        st := { s with _isLongPressed := true, _state := 6 } } := by
    simp [OneButton.tickCore, h1, hne, ht, hp, hls, hd]
  simp [OneButton.tick, hc]

/-- Witness for C7_longPressStartHandlerOrder at a concrete input: exP1 is
in state 1 with the three handlers attached, _startTime = 0 and
_pressTicks = 600; t = 601 is strictly past the threshold. -/
theorem C7_witness :
    (exP1.tick exP1._buttonPressed 601).event = Event.longPressStart ∧
    (exP1.tick exP1._buttonPressed 601).calls =
      [Cb.press, Cb.longPressStart, Cb.duringLongPress] ∧
    (exP1.tick exP1._buttonPressed 601).st._state = 6 ∧
    (exP1.tick exP1._buttonPressed 601).st._isLongPressed = true :=
  C7_longPressStartHandlerOrder exP1 601 (by decide) (by decide) (by decide)
    (by decide) (by decide) (by decide)

/-- Claim C8: the threshold setters and all six callback-registration
operations leave _state, _startTime, _isLongPressed and _lastActivityTime
unchanged; each setter changes only its own threshold field (the value the
next timing comparison will read) and does not touch the already-captured
_startTime or the other threshold. -/
theorem C8_configAndRegistrationFrame (s : OneButton) (n : Int) (f : Bool) :
    ((s.setClickTicks n)._state = s._state ∧
     (s.setClickTicks n)._startTime = s._startTime ∧
     (s.setClickTicks n)._isLongPressed = s._isLongPressed ∧
     (s.setClickTicks n)._lastActivityTime = s._lastActivityTime ∧
     (s.setClickTicks n)._clickTicks = n ∧
     (s.setClickTicks n)._pressTicks = s._pressTicks) ∧
    ((s.setPressTicks n)._state = s._state ∧
     (s.setPressTicks n)._startTime = s._startTime ∧
     (s.setPressTicks n)._isLongPressed = s._isLongPressed ∧
     (s.setPressTicks n)._lastActivityTime = s._lastActivityTime ∧
     (s.setPressTicks n)._pressTicks = n ∧
     (s.setPressTicks n)._clickTicks = s._clickTicks) ∧
    ((s.attachClick f)._state = s._state ∧
     (s.attachClick f)._startTime = s._startTime ∧
     (s.attachClick f)._isLongPressed = s._isLongPressed ∧
     (s.attachClick f)._lastActivityTime = s._lastActivityTime) ∧
    ((s.attachDoubleClick f)._state = s._state ∧
     (s.attachDoubleClick f)._startTime = s._startTime ∧
     (s.attachDoubleClick f)._isLongPressed = s._isLongPressed ∧
     (s.attachDoubleClick f)._lastActivityTime = s._lastActivityTime) ∧
    ((s.attachPress f)._state = s._state ∧
     (s.attachPress f)._startTime = s._startTime ∧
     (s.attachPress f)._isLongPressed = s._isLongPressed ∧
     (s.attachPress f)._lastActivityTime = s._lastActivityTime) ∧
    ((s.attachLongPressStart f)._state = s._state ∧
     (s.attachLongPressStart f)._startTime = s._startTime ∧
     (s.attachLongPressStart f)._isLongPressed = s._isLongPressed ∧
     (s.attachLongPressStart f)._lastActivityTime = s._lastActivityTime) ∧
    ((s.attachLongPressStop f)._state = s._state ∧
     (s.attachLongPressStop f)._startTime = s._startTime ∧
     (s.attachLongPressStop f)._isLongPressed = s._isLongPressed ∧
     (s.attachLongPressStop f)._lastActivityTime = s._lastActivityTime) ∧
    ((s.attachDuringLongPress f)._state = s._state ∧
     (s.attachDuringLongPress f)._startTime = s._startTime ∧
     (s.attachDuringLongPress f)._isLongPressed = s._isLongPressed ∧
     (s.attachDuringLongPress f)._lastActivityTime = s._lastActivityTime) :=
  ⟨⟨rfl, rfl, rfl, rfl, rfl, rfl⟩, ⟨rfl, rfl, rfl, rfl, rfl, rfl⟩,
   ⟨rfl, rfl, rfl, rfl⟩, ⟨rfl, rfl, rfl, rfl⟩, ⟨rfl, rfl, rfl, rfl⟩,
   ⟨rfl, rfl, rfl, rfl⟩, ⟨rfl, rfl, rfl, rfl⟩, ⟨rfl, rfl, rfl, rfl⟩⟩

/-- Claim C9: after construction and after every run of ticks — for either
polarity and any indeterminate initial contents of the uninitialized
members — isLongPressed() returns true exactly when _state is 6
(LongPressActive). -/
theorem C9_isLongPressedIffLongPressActive (activeLow : Bool) (st0 : Nat)
    (c0 : Bool) (samples : List (PinLevel × Nat)) :
    (OneButton.isLongPressed
        (OneButton.run (OneButton.construct activeLow st0 c0) samples) = true ↔
      (OneButton.run (OneButton.construct activeLow st0 c0) samples)._state = 6) :=
  run_lpInv samples _ (by simp [OneButton.construct])

/-- Claim C10: in state WaitSecondRelease (state 3) no deadline applies: a
released sample at ANY time fires exactly one double-click invocation
(when the handler is registered), returns DoubleClick and goes to Idle;
a pressed sample at any time returns no event, invokes nothing and leaves
the object completely unchanged, so holding the second press for any
duration never emits LongPressStart and never changes _isLongPressed. -/
theorem C10_waitSecondReleaseNoDeadline (s : OneButton)
    (h3 : s._state = 3) (hne : s._buttonPressed ≠ s._buttonReleased) :
    (∀ t : Nat,
      (s.tick s._buttonReleased t).event = Event.doubleClick ∧
      (s.tick s._buttonReleased t).calls =
        (if s._doubleClickFunc then [Cb.doubleClick] else []) ∧
      (s.tick s._buttonReleased t).st._state = 0) ∧
    (∀ t : Nat,
      (s.tick s._buttonPressed t).event = Event.none ∧
      (s.tick s._buttonPressed t).calls = [] ∧
      (s.tick s._buttonPressed t).st = s) ∧
    (∀ ts : List Nat,
      OneButton.run s (ts.map fun t => (s._buttonPressed, t)) = s ∧
      OneButton.runEvents s (ts.map fun t => (s._buttonPressed, t)) =
        ts.map fun _ => Event.none) := by
  have hrel : ∀ t : Nat, s.tickCore s._buttonReleased t =
      { event := Event.doubleClick,
        calls := if s._doubleClickFunc then [Cb.doubleClick] else [],
        st := { s with _state := 0 } } := by
    intro t
    simp [OneButton.tickCore, h3]
  have hprs : ∀ t : Nat, s.tickCore s._buttonPressed t =
      { event := Event.none, calls := [], st := s } := by
    intro t
    simp [OneButton.tickCore, h3, hne]
  have hpt : ∀ t : Nat, s.tick s._buttonPressed t =
      { event := Event.none, calls := [], st := s } := by
    intro t
    simp [OneButton.tick, hprs t]
  refine ⟨?_, ?_, ?_⟩
  · intro t
    simp [OneButton.tick, hrel t]
  · intro t
    simp [hpt t]
  · intro ts
    induction ts with
    | nil => exact ⟨rfl, rfl⟩
    | cons t rest ih =>
        simp only [List.map_cons, OneButton.run, OneButton.runEvents, hpt t]
        exact ⟨ih.1, by rw [ih.2]⟩

/-- Witness for C10_waitSecondReleaseNoDeadline at a concrete input: exW3 is
in state 3 with the double-click handler attached; t = 999999 is far past
both the click window and the long-press threshold, and the pressed run
holds the second press through t = 100000. -/
theorem C10_witness :
    (exW3.tick exW3._buttonReleased 999999).event = Event.doubleClick ∧
    (exW3.tick exW3._buttonPressed 999999).event = Event.none ∧
    OneButton.run exW3 ([700, 100000].map fun t => (exW3._buttonPressed, t)) =
      exW3 := by
  have h := C10_waitSecondReleaseNoDeadline exW3 (by decide) (by decide)
  exact ⟨(h.1 999999).1, (h.2.1 999999).1, (h.2.2 [700, 100000]).1⟩
